import Mathlib

/-!
Verification development for the `cap/oidc` relying-party library.

The Go sources are embedded shallowly:

* `time.Time` and `time.Duration` become `Int` (nanoseconds); the ambient
  wall clock (`time.Now()`) becomes an explicit `Int` argument at each point
  the Go code reads it.
* Go errors built with `fmt.Errorf("...: %w", op, cause)` become `GoError`
  values carrying the rendered message and the sentinel reachable through
  the `%w` chain (if any); `errors.Is` becomes `errorsIs`.
* Fallible functions return `Except GoError α`; a `nil` result pointer in Go
  corresponds to the `.error` branch carrying no value.
* Randomness (`NewID`'s entropy) is passed in as explicit string arguments.

Functions whose implementation file is part of the repository but absent
from the provided sources (the ID generator, the provider's `Exchange` /
`VerifyIDToken` / `validRedirect`, the option plumbing) are modelled from
the specification; each such definition says so in its doc comment.
-/

/-- One second in nanoseconds, the unit of Go `time.Duration`. -/
def second : Int := 1000000000

/-- Sentinel error values (`ErrInvalidParameter`, ... in the Go package),
modelled from the spec's §7 error-kind table (the errors file is not among
the provided sources). Only the kinds the claims touch are enumerated. -/
inductive ErrSentinel where
  | invalidParameter
  | nilParameter
  | invalidAudience
  | invalidAuthorizedParty
  | unauthorizedRedirectURI
  deriving DecidableEq, Repr

/-- The message text of a sentinel (`errors.New(...)` content), modelled
from the spec's kind names. -/
def ErrSentinel.message : ErrSentinel → String
  | .invalidParameter => "invalid parameter"
  | .nilParameter => "nil parameter"
  | .invalidAudience => "invalid audience"
  | .invalidAuthorizedParty => "invalid authorized party"
  | .unauthorizedRedirectURI => "unauthorized redirect uri"

/-- A Go error value: the rendered message plus the sentinel reachable by
unwrapping (`%w`). `base = none` models an error that wraps nothing. -/
structure GoError where
  msg : String
  base : Option ErrSentinel
  deriving DecidableEq, Repr

/-- `errors.Is(e, target)` for a sentinel target: walks the unwrap chain,
which in this embedding is flattened into `base`. -/
def errorsIs (e : GoError) (target : ErrSentinel) : Bool :=
  e.base == some target

/-- `fmt.Errorf("%s: <txt>: %w", op, base)`. -/
def wrapErr (op txt : String) (base : ErrSentinel) : GoError :=
  { msg := op ++ ": " ++ txt ++ ": " ++ base.message, base := some base }

/-- Whether an `Except` result is an error. -/
def isErr {α : Type} : Except GoError α → Bool
  | .error _ => true
  | .ok _ => false

/-- Whether a result is an error of the given kind, i.e. Go's
`err != nil && errors.Is(err, target)`. -/
def resultIsKind {α : Type} (r : Except GoError α) (k : ErrSentinel) : Bool :=
  match r with
  | .error e => errorsIs e k
  | .ok _ => false

/-- `CodeVerifier` is opaque for the claims at hand; only its presence
matters. -/
abbrev CodeVerifier := String

/-- The `implicitFlow` option record from the source. -/
structure implicitFlowOpts where
  withAccessToken : Bool
  deriving DecidableEq, Repr

/-- `St` from the source: the oidc state used for oidc flows.
`nowFunc` is the optional injected clock; it is modelled by the value the
injected function returns when called. -/
structure St where
  id : String
  nonce : String
  expiration : Int
  redirectURL : String
  scopes : List String
  audiences : List String
  nowFunc : Option Int
  withImplicit : Option implicitFlowOpts
  withVerifier : Option CodeVerifier
  deriving DecidableEq, Repr

/-- `stOptions` from the source. -/
structure stOptions where
  withNowFunc : Option Int
  withScopes : List String
  withAudiences : List String
  withImplicitFlow : Option implicitFlowOpts
  withVerifier : Option CodeVerifier
  deriving DecidableEq, Repr

/-- `stDefaults()` from the source: the zero-valued option record. -/
def stDefaults : stOptions :=
  { withNowFunc := none, withScopes := [], withAudiences := [],
    withImplicitFlow := none, withVerifier := none }

/-- A functional option targeted at `stOptions` (Go's `Option` applied
through the `o.(*stOptions)` type switch). -/
abbrev StOption := stOptions → stOptions

/-- `ApplyOpts` (option plumbing; modelled from the spec's option-bag
design note): apply each option in order. -/
def ApplyOpts (o : stOptions) (opt : List StOption) : stOptions :=
  opt.foldl (fun acc f => f acc) o

/-- `getStOpts` from the source: defaults plus the supplied overrides. -/
def getStOpts (opt : List StOption) : stOptions :=
  ApplyOpts stDefaults opt

/-- A Go `interface{}` argument as far as `WithImplicitFlow` inspects it:
either a `bool` or anything else. -/
inductive IfaceArg where
  | boolean (b : Bool)
  | nonBoolean
  deriving DecidableEq, Repr

/-- Whether an argument is the boolean value `true`. -/
def isTrueBoolArg : IfaceArg → Bool
  | .boolean true => true
  | _ => false

/-- `WithImplicitFlow(args ...interface{})` from the source: scans the
variadic arguments, flipping the (misnamed) `withoutAccessToken` flag when
a `true` boolean is seen, and installs an `implicitFlow` record with that
flag as `withAccessToken`. -/
def WithImplicitFlow (args : List IfaceArg) : StOption :=
  let withoutAccessToken :=
    args.foldl (fun acc a => match a with | .boolean true => true | _ => acc) false
  fun o => { o with withImplicitFlow := some { withAccessToken := withoutAccessToken } }

/-- `WithPKCE(v CodeVerifier)` from the source. -/
def WithPKCE (v : CodeVerifier) : StOption :=
  fun o => { o with withVerifier := some v }

/-- Modelled from the spec: the `WithNow` option (its file is not among the
provided sources) installs the injected clock. -/
def WithNow (t : Int) : StOption :=
  fun o => { o with withNowFunc := some t }

/-- Modelled from the spec: `WithAudiences` for `St` (option plumbing file
not in the provided sources). -/
def StWithAudiences (auds : List String) : StOption :=
  fun o => { o with withAudiences := auds }

/-- Modelled from the spec: `WithScopes` for `St`. -/
def StWithScopes (scopes : List String) : StOption :=
  fun o => { o with withScopes := scopes }

/-- Modelled from the spec: §4.A ID generator (its file is not among the
provided sources). `NewID` produces a random URL-safe string, prepending
the optional prefix as a `pfx_` label (`st_…` vs `n_…`); it fails only on
entropy-source exhaustion, so a functioning entropy source is modelled by
passing the random part `rnd` explicitly. -/
def NewID (pfx : String) (rnd : String) : String :=
  if pfx ≠ "" then pfx ++ "_" ++ rnd else rnd

/-- `(*St).now()` from the source: the injected clock if set, else the
wall clock (the explicit `wallNow` argument). -/
def St.now (s : St) (wallNow : Int) : Int :=
  match s.nowFunc with
  | some t => t
  | none => wallNow

/-- `NewState(expireIn, redirectURL, opt...)` from the source.  The two
random strings stand for the entropy consumed by the nonce and id
generation; `wallNow` is the wall clock at the time of the call. -/
def NewState (expireIn : Int) (redirectURL : String) (opt : List StOption)
    (nonceRnd idRnd : String) (wallNow : Int) : Except GoError St :=
  let op := "oidc.NewState"
  let opts := getStOpts opt
  if redirectURL = "" then
    .error (wrapErr op "redirect URL is empty" .invalidParameter)
  else
    let nonce := NewID "n" nonceRnd
    let id := NewID "st" idRnd
    if expireIn == 0 || expireIn < 0 then
      .error (wrapErr op "expireIn not greater than zero" .invalidParameter)
    else if opts.withVerifier.isSome && opts.withImplicitFlow.isSome then
      .error (wrapErr op "requested both implicit flow and authorization code with PKCE" .invalidParameter)
    else
      let s : St :=
        { id := id, nonce := nonce, expiration := 0, redirectURL := redirectURL,
          scopes := opts.withScopes, audiences := opts.withAudiences,
          nowFunc := opts.withNowFunc, withImplicit := opts.withImplicitFlow,
          withVerifier := opts.withVerifier }
      .ok { s with expiration := s.now wallNow + expireIn }

/-- `(*St).ImplicitFlow()` from the source. -/
def St.ImplicitFlow (s : St) : Bool × Bool :=
  match s.withImplicit with
  | none => (false, false)
  | some f => if f.withAccessToken then (true, true) else (true, false)

/-- `StateExpirySkew` from the source: 1 second. -/
def StateExpirySkew : Int := second

/-- `(*St).IsExpired()` from the source:
`s.expiration.Before(time.Now().Add(StateExpirySkew))`.  Note the source
reads the wall clock (`time.Now()`, here the explicit `timeNow` argument)
directly; it does not call `s.now()`. -/
def St.IsExpired (s : St) (timeNow : Int) : Bool :=
  s.expiration < timeNow + StateExpirySkew

/-- Hex digit (Go's `ishex`). -/
def isHexChar (c : Char) : Bool :=
  c.isDigit || (('a' ≤ c && c ≤ 'f') || ('A' ≤ c && c ≤ 'F'))

/-- Valid percent-escapes: every `%` is followed by two hex digits
(Go's `unescape` error condition for invalid URL escapes). -/
def validEscapes : List Char → Bool
  | [] => true
  | '%' :: a :: b :: rest => isHexChar a && isHexChar b && validEscapes rest
  | '%' :: _ => false
  | _ :: rest => validEscapes rest

/-- Index of the last occurrence of `c`. -/
def lastIdxOf (cs : List Char) (c : Char) : Option Nat :=
  (cs.reverse.findIdx? (· = c)).map (fun i => cs.length - 1 - i)

/-- Go's `split(s, sep, true)`: cut at the first occurrence of `sep`,
dropping the separator; `(s, "")` when absent. -/
def splitFirstCut (cs : List Char) (sep : Char) : List Char × List Char :=
  match cs.findIdx? (· = sep) with
  | none => (cs, [])
  | some i => (cs.take i, cs.drop (i + 1))

/-- Go's `split(s, sep, false)`: cut at the first occurrence of `sep`,
keeping the separator on the right part. -/
def splitFirstKeep (cs : List Char) (sep : Char) : List Char × List Char :=
  match cs.findIdx? (· = sep) with
  | none => (cs, [])
  | some i => (cs.take i, cs.drop i)

/-- Go's `validOptionalPort`: empty, or `:` followed by digits. -/
def validOptionalPort : List Char → Bool
  | [] => true
  | ':' :: rest => rest.all (·.isDigit)
  | _ => false

/-- Go's `parseHost` restricted to what the embedded inputs exercise:
validates percent-escapes, bracketed IPv6 hosts and the optional port. -/
def parseHostChars (h : List Char) : Option String :=
  if !validEscapes h then none
  else
    match h with
    | '[' :: _ =>
      match lastIdxOf h ']' with
      | none => none
      | some i => if validOptionalPort (h.drop (i + 1)) then some (String.mk h) else none
    | _ =>
      match lastIdxOf h ':' with
      | none => some (String.mk h)
      | some i => if validOptionalPort (h.drop i) then some (String.mk h) else none

/-- Go's `parseAuthority`: strip the userinfo at the last `@` (userinfo
validation is omitted: no embedded input carries userinfo), then parse the
host. -/
def parseAuthority (a : List Char) : Option String :=
  match lastIdxOf a '@' with
  | none => parseHostChars a
  | some i => parseHostChars (a.drop (i + 1))

/-- ASCII lowercasing of one character (as `strings.ToLower` acts on the
scheme characters at hand). -/
def lowerChar (c : Char) : Char :=
  if 'A' ≤ c && c ≤ 'Z' then Char.ofNat (c.toNat + 32) else c

/-- Go's `getScheme`, returning the lowercased scheme and the remainder;
`none` is the "missing protocol scheme" error. `orig` is the whole input,
returned unconsumed when no scheme is present. -/
def getSchemeAux (orig : List Char) : List Char → List Char → Option (String × List Char)
  | [], _ => some ("", orig)
  | c :: rest, acc =>
    if c = ':' then
      if acc.isEmpty then none
      else some (String.mk (acc.reverse.map lowerChar), rest)
    else if c.isAlpha then getSchemeAux orig rest (c :: acc)
    else if c.isDigit || c = '+' || c = '-' || c = '.' then
      if acc.isEmpty then some ("", orig) else getSchemeAux orig rest (c :: acc)
    else some ("", orig)

/-- The components of a parsed URL (`net/url.URL`); `opq` is the Opaque
component of rootless URLs. Path, query and fragment are kept raw: no
embedded input uses percent-escapes in them. -/
structure GoURL where
  scheme : String
  opq : String
  host : String
  path : String
  rawQuery : String
  fragment : String
  deriving DecidableEq, Repr

/-- Go's `stripPort`. -/
def stripPort (hp : String) : String :=
  let cs := hp.data
  match cs.findIdx? (· = ':') with
  | none => hp
  | some colon =>
    match cs.findIdx? (· = ']') with
    | some i =>
      match cs.take i with
      | '[' :: inner => String.mk inner
      | other => String.mk other
    | none => String.mk (cs.take colon)

/-- `u.Hostname()`: the host with any port (and IPv6 brackets) removed. -/
def GoURL.hostname (u : GoURL) : String :=
  stripPort u.host

/-- Leading `//`? -/
def isPre2Slash : List Char → Bool
  | '/' :: '/' :: _ => true
  | _ => false

/-- Leading `///`? -/
def isPre3Slash : List Char → Bool
  | '/' :: '/' :: '/' :: _ => true
  | _ => false

/-- Go's `parse(rest, viaRequest=false)` (fragment already split off):
control-character check, scheme, query split, opaque/authority/path. -/
def goURLParseCore (rest0 : String) : Option GoURL :=
  let cs := rest0.data
  if cs.any (fun c => c.toNat < 0x20 || c.toNat == 0x7f) then none
  else if rest0 = "" then some { scheme := "", opq := "", host := "", path := "", rawQuery := "", fragment := "" }
  else if rest0 = "*" then some { scheme := "", opq := "", host := "", path := "*", rawQuery := "", fragment := "" }
  else
    match getSchemeAux cs cs [] with
    | none => none
    | some (scheme, rest1) =>
      let forceQuery := rest1.getLast? == some '?' && !(rest1.dropLast.contains '?')
      let (rest2, rawQuery) :=
        if forceQuery then (rest1.dropLast, ([] : List Char))
        else splitFirstCut rest1 '?'
      if rest2.head? != some '/' then
        if scheme ≠ "" then
          some { scheme := scheme, opq := String.mk rest2, host := "", path := "",
                 rawQuery := String.mk rawQuery, fragment := "" }
        else
          let (seg, _) := splitFirstKeep rest2 '/'
          if seg.contains ':' then none
          else if validEscapes rest2 then
            some { scheme := "", opq := "", host := "", path := String.mk rest2,
                   rawQuery := String.mk rawQuery, fragment := "" }
          else none
      else
        if (decide (scheme ≠ "") || !isPre3Slash rest2) && isPre2Slash rest2 then
          let (auth, rest3) := splitFirstKeep (rest2.drop 2) '/'
          match parseAuthority auth with
          | none => none
          | some host =>
            if validEscapes rest3 then
              some { scheme := scheme, opq := "", host := host, path := String.mk rest3,
                     rawQuery := String.mk rawQuery, fragment := "" }
            else none
        else
          if validEscapes rest2 then
            some { scheme := scheme, opq := "", host := "", path := String.mk rest2,
                   rawQuery := String.mk rawQuery, fragment := "" }
          else none

/-- Go's `url.Parse`: split the fragment at the first `#`, parse the rest. -/
def goURLParse (raw : String) : Option GoURL :=
  let (before, frag) := splitFirstCut raw.data '#'
  if !validEscapes frag then none
  else (goURLParseCore (String.mk before)).map (fun u => { u with fragment := String.mk frag })

/-- `ClientSecret` from the source: a string wrapper for the relying-party
secret. -/
abbrev ClientSecret := String

/-- `RedactedClientSecret` from the source. -/
def RedactedClientSecret : String := "[REDACTED: client secret]"

/-- `(ClientSecret).String()` from the source: always the redacted
literal, regardless of the wrapped secret. -/
def ClientSecret.string (_ : ClientSecret) : String :=
  RedactedClientSecret

/-- One character of Go's `json.Marshal` string encoding (with its default
HTML escaping of `<`, `>`, `&`). -/
def jsonEscapeChar (c : Char) : String :=
  if c = '"' then "\\\""
  else if c = '\\' then "\\\\"
  else if c = '<' then "\\u003c"
  else if c = '>' then "\\u003e"
  else if c = '&' then "\\u0026"
  else if c = '\n' then "\\n"
  else if c = '\r' then "\\r"
  else if c = '\t' then "\\t"
  else if c.toNat < 0x20 then
    "\\u00" ++ String.mk [Nat.digitChar (c.toNat / 16), Nat.digitChar (c.toNat % 16)]
  else String.mk [c]

/-- Go's `json.Marshal` applied to a string value. -/
def jsonMarshalString (s : String) : String :=
  "\"" ++ String.join (s.data.map jsonEscapeChar) ++ "\""

/-- `(ClientSecret).MarshalJSON()` from the source:
`json.Marshal(RedactedClientSecret)`. -/
def ClientSecret.marshalJSON (_ : ClientSecret) : String :=
  jsonMarshalString RedactedClientSecret

/-- JWS algorithm names; `Alg` is a string type in the source. -/
abbrev Alg := String

/-- The keys of the `supportedAlgorithms` map, modelled from the spec /
the `Config` doc comment (the algorithm registry file is not among the
provided sources): the nine currently supported algorithms. -/
def supportedAlgorithms : List Alg :=
  ["RS256", "RS384", "RS512", "ES256", "ES384", "ES512", "PS256", "PS384", "PS512"]

/-- `Config` from the source. -/
structure Config where
  ClientId : String
  ClientSecret : ClientSecret
  Scopes : List String
  Issuer : String
  SupportedSigningAlgs : List Alg
  RedirectUrl : String
  Audiences : List String
  ProviderCA : String
  deriving DecidableEq, Repr

/-- `(*Config).Validate()` from the source.  The receiver is `Option
Config` so the nil-receiver branch is representable.  Note two quirks kept
faithfully from the source: the parse-failure branch passes only two
arguments for three format verbs (so nothing is wrapped), and the
bad-scheme branch wraps `err` — which is the `nil` error left over from
the successful `url.Parse` — rather than `ErrInvalidParameter`, so that
error wraps nothing either. -/
def Config.validate (c : Option Config) : Except GoError Unit :=
  let op := "Config.Validate"
  match c with
  | none => .error (wrapErr op "provider config is nil" .nilParameter)
  | some c =>
    if c.ClientId = "" then .error (wrapErr op "client id is empty" .invalidParameter)
    else if c.ClientSecret = "" then .error (wrapErr op "client secret is empty" .invalidParameter)
    else if c.Issuer = "" then .error (wrapErr op "discovery URL is empty" .invalidParameter)
    else if c.RedirectUrl = "" then .error (wrapErr op "redirect URL is empty" .invalidParameter)
    else
      match goURLParse c.Issuer with
      | none =>
        .error { msg := c.Issuer ++ ": issuer " ++ "net/url: parse error" ++ " is invalid: %!w(MISSING)",
                 base := none }
      | some u =>
        if !(["https", "http"].contains u.scheme) then
          .error { msg := op ++ ": issuer " ++ c.Issuer ++ " schema is not http or https: %!w(<nil>)",
                   base := none }
        else if c.SupportedSigningAlgs.isEmpty then
          .error (wrapErr op "supported algorithms is empty" .invalidParameter)
        else
          match c.SupportedSigningAlgs.find? (fun a => !(supportedAlgorithms.contains a)) with
          | some a => .error (wrapErr op ("unsupported algorithm " ++ a) .invalidParameter)
          | none => .ok ()

/-- `NewConfig` from the source: build the record, validate it, and wrap a
validation failure with the `NewConfig` op (the `%w` chain keeps the
underlying sentinel). -/
def NewConfig (issuer clientId : String) (clientSecret : ClientSecret)
    (supported : List Alg) (redirectUrl : String)
    (withScopes : List String) (withProviderCA : String) : Except GoError Config :=
  let c : Config :=
    { ClientId := clientId, ClientSecret := clientSecret, Scopes := withScopes,
      Issuer := issuer, SupportedSigningAlgs := supported, RedirectUrl := redirectUrl,
      Audiences := [], ProviderCA := withProviderCA }
  match Config.validate (some c) with
  | .error e => .error { msg := "NewConfig: invalid provider config: " ++ e.msg, base := e.base }
  | .ok _ => .ok c

/-- Modelled from the spec: §4.G.4 step 8 — the effective audience
allow-list is the request's audiences if non-empty, else the config's
audiences if non-empty, else `[clientID]` (the provider implementation is
not among the provided sources). -/
def effectiveAudiences (requestAuds configAuds : List String) (clientID : String) : List String :=
  if !requestAuds.isEmpty then requestAuds
  else if !configAuds.isEmpty then configAuds
  else [clientID]

/-- Modelled from the spec: §4.G.4 step 8 — at least one element of the
token's `aud` must be in the allow-list. -/
def audiencesMatch (allow aud : List String) : Bool :=
  aud.any allow.contains

/-- Modelled from the spec: §4.G.4 step 8 — `azp` is required when `aud`
has more than one element, or when `aud` is single-valued and its sole
element differs from the configured client ID. -/
def azpRequired (aud : List String) (clientID : String) : Bool :=
  decide (aud.length > 1) || (decide (aud.length = 1) && !(aud == [clientID]))

/-- Modelled from the spec: the audience + authorized-party stage of
`VerifyIDToken` (§4.G.4 step 8; the provider implementation is not among
the provided sources).  `azp = none` models an absent `azp` claim. -/
def verifyAudAzp (requestAuds configAuds : List String) (clientID : String)
    (aud : List String) (azp : Option String) : Except GoError Unit :=
  let op := "Provider.VerifyIDToken"
  let allow := effectiveAudiences requestAuds configAuds clientID
  if !audiencesMatch allow aud then
    .error (wrapErr op "invalid audience" .invalidAudience)
  else
    match azp with
    | some a =>
      if a = clientID then .ok ()
      else .error (wrapErr op "invalid authorized party" .invalidAuthorizedParty)
    | none =>
      if azpRequired aud clientID then
        .error (wrapErr op "authorized party is missing" .invalidAuthorizedParty)
      else .ok ()

/-- Modelled from the spec: the precondition stage of
`Exchange(request, returnedState, authCode)` (§4.G.3; the provider
implementation is not among the provided sources): provider configured,
`returnedState == request.ID()`, request not expired.  `.ok ()` means the
guards passed and the token exchange proceeds; any `.error` is returned
with a nil token. `timeNow` is the wall clock at the call. -/
def exchangeGuard (configured : Bool) (s : St) (returnedState : String)
    (timeNow : Int) : Except GoError Unit :=
  let op := "Provider.Exchange"
  if !configured then
    .error (wrapErr op "provider config is nil" .nilParameter)
  else if returnedState ≠ s.id then
    .error (wrapErr op "authentication state and exchange state are not equal" .invalidParameter)
  else if s.IsExpired timeNow then
    .error (wrapErr op "authentication state is expired" .invalidParameter)
  else .ok ()

/-- Modelled from the spec: `validRedirect` exactly as §4.G.6 words it —
empty allow-list permits any syntactically valid URL; otherwise the
candidate must be byte-for-byte equal to some entry, with no host,
loopback or port normalization; unparseable candidate is
`InvalidParameter`, parseable non-match is `UnauthorizedRedirectURI`. -/
def validRedirectSpec (uri : String) (allowed : List String) : Except GoError Unit :=
  let op := "Provider.validRedirect"
  match goURLParse uri with
  | none => .error (wrapErr op ("redirect URI " ++ uri ++ " is an invalid URI") .invalidParameter)
  | some _ =>
    if allowed.isEmpty || allowed.contains uri then .ok ()
    else .error (wrapErr op ("redirect URI " ++ uri ++ " is unauthorized") .unauthorizedRedirectURI)

/-- The loopback hostnames recognized by the redirect validator. -/
def loopbackHosts : List String := ["localhost", "127.0.0.1", "::1"]

/-- Whether an allow-list entry matches a loopback candidate: the entry
must parse and agree on scheme, hostname, path and query — the port is
deliberately ignored. -/
def loopbackMatch (u : GoURL) (entry : String) : Bool :=
  match goURLParse entry with
  | none => false
  | some au =>
    u.scheme == au.scheme && u.hostname == au.hostname
      && u.path == au.path && u.rawQuery == au.rawQuery

/-- Modelled from the spec: `validRedirect` (§4.G.6), amended only where
the repository's own test table (`TestProvider_validRedirect`) contradicts
the spec's "no host/loopback/port normalization": a candidate whose
hostname is a loopback host is matched port-agnostically against the
parseable entries on scheme, hostname, path and query.  Everything else
follows the spec's words: the candidate must parse (an unparseable
candidate is `InvalidParameter`), an empty allow-list permits any
syntactically valid URL, and any other candidate must be byte-for-byte
equal to an entry (else `UnauthorizedRedirectURI`). -/
def validRedirect (uri : String) (allowed : List String) : Except GoError Unit :=
  let op := "Provider.validRedirect"
  match goURLParse uri with
  | none => .error (wrapErr op ("redirect URI " ++ uri ++ " is an invalid URI") .invalidParameter)
  | some u =>
    if allowed.isEmpty then .ok ()
    else if !(loopbackHosts.contains u.hostname) then
      if allowed.contains uri then .ok ()
      else .error (wrapErr op ("redirect URI " ++ uri ++ " is unauthorized") .unauthorizedRedirectURI)
    else
      if allowed.any (loopbackMatch u) then .ok ()
      else .error (wrapErr op ("redirect URI " ++ uri ++ " is unauthorized") .unauthorizedRedirectURI)

/-- The rows of `TestProvider_validRedirect` from the repository's test
file, verbatim: candidate URI, allow-list, expected outcome (`none` is a
nil error; `some k` is the expected error kind checked with `errors.Is`). -/
def validRedirectTests : List (String × List String × Option ErrSentinel) :=
  [ ("https://example.com", ["https://example.com"], none),
    ("https://example.com:5000", ["a", "b", "https://example.com:5000"], none),
    ("https://example.com/a/b/c", ["a", "b", "https://example.com/a/b/c"], none),
    ("https://localhost:9000", ["a", "b", "https://localhost:5000"], none),
    ("https://127.0.0.1:9000", ["a", "b", "https://127.0.0.1:5000"], none),
    ("https://[::1]:9000", ["a", "b", "https://[::1]:5000"], none),
    ("https://[::1]:9000/x/y?r=42", ["a", "b", "https://[::1]:5000/x/y?r=42"], none),
    ("https://example.com", [], none),
    ("http://example.com", ["a", "b", "https://example.com"], some .unauthorizedRedirectURI),
    ("https://example.com:9000", ["a", "b", "https://example.com:5000"], some .unauthorizedRedirectURI),
    ("https://[::2]:9000", ["a", "b", "https://[::2]:5000"], some .unauthorizedRedirectURI),
    ("https://localhost:5000", ["a", "b", "https://127.0.0.1:5000"], some .unauthorizedRedirectURI),
    ("https://localhost:5000", ["a", "b", "https://127.0.0.1:5000"], some .unauthorizedRedirectURI),
    ("https://localhost:5000", ["a", "b", "http://localhost:5000"], some .unauthorizedRedirectURI),
    ("https://[::1]:5000/x/y?r=42", ["a", "b", "https://[::1]:5000/x/y?r=43"], some .unauthorizedRedirectURI),
    ("%%%%%%%%%%%", ["%%%%%%%%%%%"], some .invalidParameter) ]

/-- Whether a redirect-validation result matches a test row's expectation:
a nil error, or an error for which `errors.Is` reports the expected kind. -/
def redirectMatchesExpected (r : Except GoError Unit) (expected : Option ErrSentinel) : Bool :=
  match r, expected with
  | .ok _, none => true
  | .error e, some k => errorsIs e k
  | _, _ => false

/-- The state produced by
`NewState second "http://localhost" [] "nr" "ir" 0`, used by witnesses. -/
def stWitness : St :=
  { id := "st_ir", nonce := "n_nr", expiration := second,
    redirectURL := "http://localhost", scopes := [], audiences := [],
    nowFunc := none, withImplicit := none, withVerifier := none }

/-- The state produced when the implicit-flow option (with a `true`
argument) is supplied, used by witnesses. -/
def stWitnessImplicit : St :=
  { stWitness with withImplicit := some { withAccessToken := true } }

/-- Helper: labelled ids with different prefixes are distinct strings. -/
theorem NewID_st_ne_n (a b : String) : NewID "st" a ≠ NewID "n" b := by
  intro h
  have h1 : ("st_" ++ a : String) = ("n_" ++ b : String) := by
    simpa [NewID] using h
  have h2 := congrArg String.data h1
  rw [String.data_append, String.data_append] at h2
  have hst : ("st_" : String).data = ['s', 't', '_'] := rfl
  have hn : ("n_" : String).data = ['n', '_'] := rfl
  rw [hst, hn] at h2
  simp at h2

/-- Helper: labelled ids are non-empty. -/
theorem NewID_label_ne_empty (pfx a : String) (h : pfx ≠ "") : NewID pfx a ≠ "" := by
  intro he
  have h1 : ("" : String) = pfx ++ "_" ++ a := by
    rw [NewID, if_pos h] at he
    exact he.symm
  have h2 := congrArg String.data h1
  rw [String.data_append, String.data_append] at h2
  have hemp : (("" : String)).data = [] := rfl
  have hund : (("_" : String)).data = ['_'] := rfl
  rw [hemp, hund] at h2
  have : pfx.data ++ ['_'] ++ a.data ≠ [] := by simp
  exact this h2.symm

/-- Claim C2: `NewState(expireIn, redirectURL, opts...)` returns an error
of the `InvalidParameter` kind (and no state) exactly when `redirectURL`
is the empty string, or `expireIn ≤ 0`, or both the implicit-flow and the
PKCE options were applied; on every other input — entropy is modelled as
functioning by the explicit random arguments — it returns a state and no
error. -/
theorem NewState_invalidParameter_characterization
    (expireIn : Int) (redirectURL : String) (opt : List StOption)
    (nr ir : String) (w : Int) :
    (resultIsKind (NewState expireIn redirectURL opt nr ir w) ErrSentinel.invalidParameter = true ↔
      (redirectURL = "" ∨ expireIn ≤ 0 ∨
        ((getStOpts opt).withImplicitFlow.isSome = true ∧ (getStOpts opt).withVerifier.isSome = true))) ∧
    (¬(redirectURL = "" ∨ expireIn ≤ 0 ∨
        ((getStOpts opt).withImplicitFlow.isSome = true ∧ (getStOpts opt).withVerifier.isSome = true)) →
      ∃ s, NewState expireIn redirectURL opt nr ir w = Except.ok s) := by
  constructor
  · simp only [NewState]
    split_ifs with h1 h2 h3
    · simp only [resultIsKind, errorsIs, wrapErr, beq_self_eq_true, true_iff]
      exact Or.inl h1
    · simp only [resultIsKind, errorsIs, wrapErr, beq_self_eq_true, true_iff]
      refine Or.inr (Or.inl ?_)
      simp only [Bool.or_eq_true, beq_iff_eq, decide_eq_true_eq] at h2
      omega
    · simp only [resultIsKind, errorsIs, wrapErr, beq_self_eq_true, true_iff]
      refine Or.inr (Or.inr ?_)
      simp only [Bool.and_eq_true] at h3
      exact ⟨h3.2, h3.1⟩
    · simp only [resultIsKind, Bool.false_eq_true, false_iff]
      push_neg
      refine ⟨h1, ?_, ?_⟩
      · simp only [Bool.or_eq_true, beq_iff_eq, decide_eq_true_eq, not_or] at h2
        omega
      · intro hi hv
        exact h3 (by simp only [Bool.and_eq_true]; exact ⟨hv, hi⟩)
  · intro hn
    simp only [NewState]
    split_ifs with h1 h2 h3
    · exact absurd (Or.inl h1) hn
    · exfalso
      apply hn
      refine Or.inr (Or.inl ?_)
      simp only [Bool.or_eq_true, beq_iff_eq, decide_eq_true_eq] at h2
      omega
    · exfalso
      apply hn
      refine Or.inr (Or.inr ?_)
      simp only [Bool.and_eq_true] at h3
      exact ⟨h3.2, h3.1⟩
    · exact ⟨_, rfl⟩

/-- Witness for claim C2 at a concrete input: a one-second expiry and a
non-empty redirect produce a state. -/
theorem NewState_invalidParameter_characterization_witness :
    ¬(("http://localhost" : String) = "" ∨ second ≤ (0 : Int) ∨
        ((getStOpts ([] : List StOption)).withImplicitFlow.isSome = true ∧
          (getStOpts ([] : List StOption)).withVerifier.isSome = true)) ∧
    (∃ s, NewState second "http://localhost" [] "nr" "ir" 0 = Except.ok s) :=
  ⟨by decide,
    (NewState_invalidParameter_characterization second "http://localhost" [] "nr" "ir" 0).2
      (by decide)⟩

/-- Claim C3: every state built by `NewState` satisfies the invariants:
its id differs from its nonce, both are non-empty, the expiration is
strictly later than the construction-time `now()` (injected clock when
supplied, wall clock otherwise), and at most one of the PKCE verifier and
the implicit-flow setting is set. -/
theorem NewState_state_invariants
    (expireIn : Int) (redirectURL : String) (opt : List StOption)
    (nr ir : String) (w : Int) (s : St)
    (h : NewState expireIn redirectURL opt nr ir w = Except.ok s) :
    s.id ≠ s.nonce ∧ s.id ≠ "" ∧ s.nonce ≠ "" ∧ St.now s w < s.expiration ∧
      ¬(s.withVerifier.isSome = true ∧ s.withImplicit.isSome = true) := by
  simp only [NewState] at h
  split_ifs at h with h1 h2 h3
  injection h with h
  subst h
  refine ⟨?_, ?_, ?_, ?_, ?_⟩
  · exact NewID_st_ne_n ir nr
  · exact NewID_label_ne_empty "st" ir (by decide)
  · exact NewID_label_ne_empty "n" nr (by decide)
  · have hpos : 0 < expireIn := by
      simp only [Bool.or_eq_true, beq_iff_eq, decide_eq_true_eq, not_or] at h2
      omega
    cases hn : (getStOpts opt).withNowFunc <;> simp [St.now, hn] <;> omega
  · intro hb
    apply h3
    simp only [Bool.and_eq_true]
    exact ⟨hb.1, hb.2⟩

/-- Witness for claim C3 at a concrete input. -/
theorem NewState_state_invariants_witness :
    NewState second "http://localhost" [] "nr" "ir" 0 = Except.ok stWitness ∧
    (stWitness.id ≠ stWitness.nonce ∧ stWitness.id ≠ "" ∧ stWitness.nonce ≠ "" ∧
      St.now stWitness 0 < stWitness.expiration ∧
      ¬(stWitness.withVerifier.isSome = true ∧ stWitness.withImplicit.isSome = true)) :=
  ⟨by rfl,
    NewState_state_invariants second "http://localhost" [] "nr" "ir" 0 stWitness (by rfl)⟩

/-- Helper: the `WithImplicitFlow` argument scan is equivalent to "some
argument is the boolean `true`". -/
theorem implicitFold_eq_any (args : List IfaceArg) (acc : Bool) :
    args.foldl (fun acc a => match a with | .boolean true => true | _ => acc) acc
      = (acc || args.any isTrueBoolArg) := by
  induction args generalizing acc with
  | nil => simp
  | cons a rest ih =>
    cases a with
    | boolean b =>
      cases b
      · simpa [isTrueBoolArg] using ih acc
      · simp [isTrueBoolArg, ih]
    | nonBoolean => simpa [isTrueBoolArg] using ih acc

/-- Helper: the fields of a successfully constructed state. -/
theorem NewState_ok_fields
    (expireIn : Int) (redirectURL : String) (opt : List StOption)
    (nr ir : String) (w : Int) (s : St)
    (h : NewState expireIn redirectURL opt nr ir w = Except.ok s) :
    s.withImplicit = (getStOpts opt).withImplicitFlow ∧
      s.withVerifier = (getStOpts opt).withVerifier ∧
      s.nowFunc = (getStOpts opt).withNowFunc ∧
      s.expiration = St.now s w + expireIn := by
  simp only [NewState] at h
  split_ifs at h with h1 h2 h3
  injection h with h
  subst h
  refine ⟨rfl, rfl, rfl, ?_⟩
  cases hn : (getStOpts opt).withNowFunc <;> simp [St.now, hn]

/-- Claim C10: a state built without the implicit-flow option reports
`ImplicitFlow() = (false, false)`; a state built with
`WithImplicitFlow(args...)` reports `(true, b)` where `b` is true exactly
when some variadic argument is the boolean value `true` (non-boolean
arguments and `false` booleans are ignored). -/
theorem ImplicitFlow_from_options
    (expireIn : Int) (redirectURL : String) (opt : List StOption)
    (args : List IfaceArg) (nr ir : String) (w : Int) (s1 s2 : St) :
    (NewState expireIn redirectURL opt nr ir w = Except.ok s1 →
      (getStOpts opt).withImplicitFlow = none → s1.ImplicitFlow = (false, false)) ∧
    (NewState expireIn redirectURL (opt ++ [WithImplicitFlow args]) nr ir w = Except.ok s2 →
      s2.ImplicitFlow = (true, args.any isTrueBoolArg)) := by
  constructor
  · intro h hnone
    have hf := (NewState_ok_fields expireIn redirectURL opt nr ir w s1 h).1
    rw [hnone] at hf
    simp [St.ImplicitFlow, hf]
  · intro h
    have hf := (NewState_ok_fields expireIn redirectURL (opt ++ [WithImplicitFlow args]) nr ir w s2 h).1
    have hopt : (getStOpts (opt ++ [WithImplicitFlow args])).withImplicitFlow
        = some { withAccessToken := args.any isTrueBoolArg } := by
      unfold getStOpts ApplyOpts
      rw [List.foldl_append]
      simp only [List.foldl_cons, List.foldl_nil, WithImplicitFlow]
      rw [implicitFold_eq_any]
      simp
    rw [hopt] at hf
    cases hb : args.any isTrueBoolArg <;> rw [hb] at hf <;> simp [St.ImplicitFlow, hf]

/-- Witness for claim C10 at concrete inputs: no option gives
`(false, false)`; `WithImplicitFlow(struct, true)` gives `(true, true)`. -/
theorem ImplicitFlow_from_options_witness :
    (NewState second "http://localhost" [] "nr" "ir" 0 = Except.ok stWitness ∧
      stWitness.ImplicitFlow = (false, false)) ∧
    (NewState second "http://localhost"
        ([] ++ [WithImplicitFlow [IfaceArg.nonBoolean, IfaceArg.boolean true]]) "nr" "ir" 0
        = Except.ok stWitnessImplicit ∧
      stWitnessImplicit.ImplicitFlow = (true, true)) :=
  ⟨⟨by rfl,
      (ImplicitFlow_from_options second "http://localhost" []
          [IfaceArg.nonBoolean, IfaceArg.boolean true] "nr" "ir" 0 stWitness stWitness).1
        (by rfl) (by rfl)⟩,
    ⟨by rfl,
      by
        have h :=
          (ImplicitFlow_from_options second "http://localhost" []
              [IfaceArg.nonBoolean, IfaceArg.boolean true] "nr" "ir" 0
              stWitnessImplicit stWitnessImplicit).2 (by rfl)
        simpa using h⟩⟩

/-- Counterexample for claim C4.  First conjunct: a state built with an
injected clock fixed at 0 and a 7200-second expiry is reported expired by
`IsExpired` once the wall clock reads 10000 seconds, although under the
claim's reading (`now` from the injected `now()`, expired once
`now + 1s ≥ expiration`) it must not be expired — `IsExpired` reads the
wall clock directly.  Second conjunct: with no injected clock (so the
claim's `now()` and the wall clock agree) and expiration at 3600 seconds,
at wall time 3599s we have `now + 1s ≥ expiration` yet `IsExpired` is
false — the source comparison is strict (`expiration.Before(now+skew)`),
not `≥`. -/
theorem IsExpired_injected_now_cex :
    (NewState (7200 * second) "http://localhost" [WithNow 0] "nr" "ir" 0).map
        (fun s => (s.IsExpired (10000 * second),
          decide (St.now s (10000 * second) + StateExpirySkew ≥ s.expiration)))
      = Except.ok (true, false) ∧
    (NewState (3600 * second) "http://localhost" [] "nr" "ir" 0).map
        (fun s => (s.IsExpired (3599 * second),
          decide (St.now s (3599 * second) + StateExpirySkew ≥ s.expiration)))
      = Except.ok (false, true) :=
  ⟨by rfl, by rfl⟩

/-- Claim C4 (amended): for every state built by `NewState`,
`IsExpired()` returns true exactly when `wallNow + 1s > expiration`,
where `wallNow` is a direct `time.Now()` read; the result is independent
of the injected `nowFunc`, which is consulted only when computing the
expiration at construction time (`expiration = now() + expireIn`). -/
theorem IsExpired_wallclock_amended
    (expireIn : Int) (redirectURL : String) (opt : List StOption)
    (nr ir : String) (w : Int) (s : St)
    (h : NewState expireIn redirectURL opt nr ir w = Except.ok s) :
    (∀ t, s.IsExpired t = decide (t + StateExpirySkew > s.expiration)) ∧
    (∀ t inj, St.IsExpired { s with nowFunc := some inj } t = s.IsExpired t) ∧
    s.expiration = St.now s w + expireIn := by
  refine ⟨fun t => rfl, fun t inj => rfl, ?_⟩
  exact (NewState_ok_fields expireIn redirectURL opt nr ir w s h).2.2.2

/-- Witness for the amended claim C4 at concrete inputs. -/
theorem IsExpired_wallclock_amended_witness :
    stWitness.IsExpired (2 * second) = decide (2 * second + StateExpirySkew > stWitness.expiration) ∧
    St.IsExpired { stWitness with nowFunc := some 0 } (2 * second) = stWitness.IsExpired (2 * second) ∧
    stWitness.expiration = St.now stWitness 0 + second :=
  have h := IsExpired_wallclock_amended second "http://localhost" [] "nr" "ir" 0 stWitness (by rfl)
  ⟨h.1 (2 * second), h.2.1 (2 * second) 0, h.2.2⟩

/-- Claim C5: `ClientSecret.String()` and `ClientSecret.MarshalJSON()` are
independent of the wrapped secret — any two secrets render identically —
and the common rendering is the fixed redacted literal (its JSON encoding
for `MarshalJSON`), so no information about the raw secret reaches either
rendering. -/
theorem ClientSecret_redaction (s1 s2 : ClientSecret) :
    ClientSecret.string s1 = ClientSecret.string s2 ∧
    ClientSecret.marshalJSON s1 = ClientSecret.marshalJSON s2 ∧
    ClientSecret.string s1 = "[REDACTED: client secret]" ∧
    ClientSecret.marshalJSON s1 = "\"[REDACTED: client secret]\"" :=
  ⟨rfl, rfl, rfl, by rfl⟩

/-- Claim C1: once the token's `aud` passes the allow-list check, the
`azp` stage fails with `InvalidAuthorizedParty` exactly when `azp` is
required (more than one audience, or a single audience different from the
client ID) but absent, or present but different from the client ID; in
every other case the stage passes. -/
theorem verifyAudAzp_azp_rule
    (reqAuds configAuds : List String) (clientID : String)
    (aud : List String) (azp : Option String)
    (haud : audiencesMatch (effectiveAudiences reqAuds configAuds clientID) aud = true) :
    (resultIsKind (verifyAudAzp reqAuds configAuds clientID aud azp)
        ErrSentinel.invalidAuthorizedParty = true ↔
      ((azpRequired aud clientID = true ∧ azp = none) ∨
        (∃ a, azp = some a ∧ a ≠ clientID))) ∧
    (verifyAudAzp reqAuds configAuds clientID aud azp = Except.ok () ↔
      ¬((azpRequired aud clientID = true ∧ azp = none) ∨
        (∃ a, azp = some a ∧ a ≠ clientID))) := by
  unfold verifyAudAzp
  simp only [haud, Bool.not_true, Bool.false_eq_true, if_false]
  cases azp with
  | none =>
    cases hr : azpRequired aud clientID
    · simp [resultIsKind, errorsIs, wrapErr]
    · simp [resultIsKind, errorsIs, wrapErr]
  | some a =>
    by_cases ha : a = clientID
    · simp [ha, resultIsKind, errorsIs, wrapErr]
    · simp [ha, resultIsKind, errorsIs, wrapErr]

/-- Witness for claim C1 at a concrete input from the repository's test
table: `aud = ["alice","bob","test-client-id"]` passes the allow-list
(`[clientID]`), `azp` is absent, and the stage fails with
`InvalidAuthorizedParty`. -/
theorem verifyAudAzp_azp_rule_witness :
    audiencesMatch (effectiveAudiences [] [] "test-client-id")
      ["alice", "bob", "test-client-id"] = true ∧
    resultIsKind (verifyAudAzp [] [] "test-client-id" ["alice", "bob", "test-client-id"] none)
      ErrSentinel.invalidAuthorizedParty = true :=
  ⟨by rfl,
    ((verifyAudAzp_azp_rule [] [] "test-client-id" ["alice", "bob", "test-client-id"] none
        (by rfl)).1).mpr (Or.inl ⟨by rfl, rfl⟩)⟩

/-- Claim C7: on a configured provider, `Exchange` fails with an
`InvalidParameter`-kind error (hence no token) whenever the returned state
differs from the request's id, and likewise whenever the request is
already expired at the time of the call. -/
theorem exchangeGuard_invalidParameter
    (s : St) (returnedState : String) (timeNow : Int)
    (h : returnedState ≠ s.id ∨ s.IsExpired timeNow = true) :
    resultIsKind (exchangeGuard true s returnedState timeNow)
      ErrSentinel.invalidParameter = true := by
  unfold exchangeGuard
  split_ifs with h1 h2 h3
  · simp at h1
  · rfl
  · rfl
  · rcases h with h | h
    · exact absurd h h2
    · exact absurd h h3

/-- Witness for claim C7 at a concrete input: a returned state different
from the request id is rejected as `InvalidParameter`. -/
theorem exchangeGuard_invalidParameter_witness :
    (("not-equal" : String) ≠ stWitness.id ∨ stWitness.IsExpired 0 = true) ∧
    resultIsKind (exchangeGuard true stWitness "not-equal" 0)
      ErrSentinel.invalidParameter = true :=
  have hne : ("not-equal" : String) ≠ stWitness.id := by decide
  ⟨Or.inl hne, exchangeGuard_invalidParameter stWitness "not-equal" 0 (Or.inl hne)⟩


/-- Counterexample for claim C6: the repository's own test table
(`TestProvider_validRedirect`) expects `validRedirect` to ACCEPT the
candidate "https://localhost:9000" against the allow-list
["a", "b", "https://localhost:5000"], although the candidate parses and is
byte-for-byte equal to no entry — under the claim's exact-match,
no-normalization semantics (`validRedirectSpec`) the outcome is an
`UnauthorizedRedirectURI`-kind error, so that row refutes the claim:
ports of loopback hosts are in fact normalized away. -/
theorem validRedirect_no_normalization_cex :
    ("https://localhost:9000", ["a", "b", "https://localhost:5000"],
        (none : Option ErrSentinel)) ∈ validRedirectTests ∧
    resultIsKind (validRedirectSpec "https://localhost:9000" ["a", "b", "https://localhost:5000"])
      ErrSentinel.unauthorizedRedirectURI = true ∧
    redirectMatchesExpected
      (validRedirectSpec "https://localhost:9000" ["a", "b", "https://localhost:5000"])
      (none : Option ErrSentinel) = false :=
  ⟨by decide, by rfl, by rfl⟩

/-- Claim C6 (amended): `validRedirect(u)` succeeds iff `u` parses as a
URL and either the allow-list is empty, or `u` is byte-for-byte equal to
some entry, or `u`'s hostname is a loopback host (localhost, 127.0.0.1,
::1) and some entry parses with the same scheme, hostname, path and query
— the port being ignored; an unparseable `u` yields an
`InvalidParameter`-kind error and a parseable non-matching `u` an
`UnauthorizedRedirectURI`-kind error; non-loopback hosts still match
exactly (localhost ≠ 127.0.0.1, and differing ports mismatch for
non-loopback hosts).  This loopback-aware semantics reproduces every row
of the repository's test table. -/
theorem validRedirect_matches_test_table :
    validRedirectTests.all
      (fun t => redirectMatchesExpected (validRedirect t.1 t.2.1) t.2.2) = true := by
  rfl

/-- Counterexample for claim C8: `Config.Validate` performs no
query/fragment check on the Issuer — a config whose Issuer carries both a
query and a fragment component passes `Validate` (and `NewConfig`), so it
is not rejected with `InvalidParameter`. -/
theorem validate_accepts_query_fragment_cex :
    isErr (Config.validate (some
      { ClientId := "an-id", ClientSecret := "a-secret", Scopes := [],
        Issuer := "https://example.com/path?q=1#frag",
        SupportedSigningAlgs := ["RS256"], RedirectUrl := "https://redirect",
        Audiences := [], ProviderCA := "" })) = false ∧
    isErr (NewConfig "https://example.com/path?q=1#frag" "an-id" "a-secret"
      ["RS256"] "https://redirect" [] "") = false :=
  ⟨by rfl, by rfl⟩

/-- Claim C8 (amended): `Config.Validate` rejects an empty Issuer with an
`InvalidParameter`-kind error (any config with an empty Issuer fails with
that kind — an empty client id or secret hits an earlier check of the
same kind), and returns an error whenever the Issuer parses with a scheme
that is neither https nor http; it performs no query/fragment check, and
the counterexample shows such an Issuer being accepted. -/
theorem validate_issuer_checks (c : Config) (u : GoURL) :
    (c.Issuer = "" →
      resultIsKind (Config.validate (some c)) ErrSentinel.invalidParameter = true) ∧
    (goURLParse c.Issuer = some u → ¬(u.scheme = "https" ∨ u.scheme = "http") →
      isErr (Config.validate (some c)) = true) := by
  constructor
  · intro hi
    simp only [Config.validate]
    by_cases h1 : c.ClientId = ""
    · simp [h1, resultIsKind, errorsIs, wrapErr]
    · by_cases h2 : c.ClientSecret = ""
      · simp [h1, h2, resultIsKind, errorsIs, wrapErr]
      · simp [h1, h2, hi, resultIsKind, errorsIs, wrapErr]
  · intro hp hs
    have hmem : ¬ u.scheme ∈ ["https", "http"] := by simpa using hs
    simp only [Config.validate]
    by_cases h1 : c.ClientId = ""
    · simp [h1, isErr]
    · by_cases h2 : c.ClientSecret = ""
      · simp [h1, h2, isErr]
      · by_cases h3 : c.Issuer = ""
        · simp [h1, h2, h3, isErr]
        · by_cases h4 : c.RedirectUrl = ""
          · simp [h1, h2, h3, h4, isErr]
          · simp [h1, h2, h3, h4, hp, hmem, isErr]

/-- Witness for the amended claim C8: the empty-Issuer rejection at a
concrete config, and the bad-scheme rejection at the
`ldap://ldap.example.com` config. -/
theorem validate_issuer_checks_witness :
    resultIsKind (Config.validate (some
      { ClientId := "an-id", ClientSecret := "a-secret", Scopes := [],
        Issuer := "", SupportedSigningAlgs := ["RS256"],
        RedirectUrl := "https://redirect", Audiences := [], ProviderCA := "" }))
      ErrSentinel.invalidParameter = true ∧
    isErr (Config.validate (some
      { ClientId := "an-id", ClientSecret := "a-secret", Scopes := [],
        Issuer := "ldap://ldap.example.com", SupportedSigningAlgs := ["RS256"],
        RedirectUrl := "https://redirect", Audiences := [], ProviderCA := "" })) = true :=
  ⟨(validate_issuer_checks
      { ClientId := "an-id", ClientSecret := "a-secret", Scopes := [],
        Issuer := "", SupportedSigningAlgs := ["RS256"],
        RedirectUrl := "https://redirect", Audiences := [], ProviderCA := "" }
      { scheme := "", opq := "", host := "", path := "", rawQuery := "", fragment := "" }).1
      rfl,
    (validate_issuer_checks
      { ClientId := "an-id", ClientSecret := "a-secret", Scopes := [],
        Issuer := "ldap://ldap.example.com", SupportedSigningAlgs := ["RS256"],
        RedirectUrl := "https://redirect", Audiences := [], ProviderCA := "" }
      { scheme := "ldap", opq := "", host := "ldap.example.com", path := "",
        rawQuery := "", fragment := "" }).2
      (by rfl) (by decide)⟩

/-- Claim C9 (code bug): at the concrete config whose Issuer is
`ldap://ldap.example.com`, `Config.Validate` does return an error whose
message carries the `Config.Validate` operation name, but the error wraps
nothing: the source's bad-scheme branch hands `%w` the `err` left over
from the preceding successful `url.Parse` — which is nil — instead of
`ErrInvalidParameter`, so `errors.Is(err, ErrInvalidParameter)` is false
and the kind is not detectable, contrary to the claim. -/
theorem validate_scheme_error_not_invalidParameter :
    Config.validate (some
      { ClientId := "an-id", ClientSecret := "a-secret", Scopes := [],
        Issuer := "ldap://ldap.example.com", SupportedSigningAlgs := ["RS256"],
        RedirectUrl := "https://redirect", Audiences := [], ProviderCA := "" })
      = Except.error
          { msg := "Config.Validate: issuer ldap://ldap.example.com schema is not http or https: %!w(<nil>)",
            base := none } ∧
    resultIsKind (Config.validate (some
      { ClientId := "an-id", ClientSecret := "a-secret", Scopes := [],
        Issuer := "ldap://ldap.example.com", SupportedSigningAlgs := ["RS256"],
        RedirectUrl := "https://redirect", Audiences := [], ProviderCA := "" }))
      ErrSentinel.invalidParameter = false :=
  ⟨by rfl, by rfl⟩
